import Mathlib

/-!
Verification of the jaegerremote sampling-strategy provider.

The development shallowly embeds the strategy-update state machine of the
Jaeger remote sampler: the policy document types from the Jaeger api_v2
protocol, the decision samplers from the tracing SDK, the policy translator
and the facade. Rates are modelled as rationals, 128-bit trace identifiers
as natural numbers below 2 ^ 128, and the fetch collaborator as an explicit
Except-valued argument.
-/

namespace JaegerRemote

/-- Sampling decision of the tracing SDK: Drop, RecordOnly, RecordAndSample. -/
inductive Decision where
  | Drop
  | RecordOnly
  | RecordAndSample
  deriving DecidableEq, Repr

/-- Probabilistic strategy shape of the api_v2 protocol: a single sampling rate. -/
structure ProbabilisticSamplingStrategy where
  SamplingRate : ℚ
  deriving DecidableEq, Repr

/-- Rate-limiting strategy shape of the api_v2 protocol: max traces per second. -/
structure RateLimitingSamplingStrategy where
  MaxTracesPerSecond : ℚ
  deriving DecidableEq, Repr

/-- Modelled from the spec: one entry of a per-operation document, mapping an
operation name to a probabilistic or rate-limiting sub-document (the generated
protocol code is not part of the embedded sources). -/
structure OperationSamplingStrategy where
  Operation : String
  ProbabilisticSampling : Option ProbabilisticSamplingStrategy
  RateLimitingSampling : Option RateLimitingSamplingStrategy
  deriving DecidableEq, Repr

/-- Per-operation strategy shape: a default probabilistic rate plus a list of
per-operation entries. -/
structure PerOperationSamplingStrategies where
  DefaultSamplingProbability : ℚ
  PerOperationStrategies : List OperationSamplingStrategy
  deriving DecidableEq, Repr

/-- Strategy-type tag value for the probabilistic strategy (protocol value 0,
which is also the zero value of the tag field). -/
def SamplingStrategyType_PROBABILISTIC : ℕ := 0

/-- Strategy-type tag value for the rate-limiting strategy (protocol value 1). -/
def SamplingStrategyType_RATE_LIMITING : ℕ := 1

/-- A fetched sampling-strategy document: a strategy-type tag plus three
optional shapes. The zero value has tag 0 and no shape populated. -/
structure SamplingStrategyResponse where
  StrategyType : ℕ
  ProbabilisticSampling : Option ProbabilisticSamplingStrategy
  RateLimitingSampling : Option RateLimitingSamplingStrategy
  OperationSampling : Option PerOperationSamplingStrategies
  deriving DecidableEq, Repr

/-- Decision samplers as a closed variant type: the always-on and always-off
samplers, the trace-ID-ratio sampler of the SDK (carrying its precomputed
upper bound and description string), the rate-limiting sampler, and the
per-operation sampler holding a default sampler and an operation map. -/
inductive Sampler where
  | alwaysOn : Sampler
  | alwaysOff : Sampler
  | traceIDRatioSampler (traceIDUpperBound : ℕ) (description : String) : Sampler
  | rateLimiting (maxTracesPerSecond : ℚ) : Sampler
  | perOperation (defaultSampler : Sampler) (operationMap : List (String × Sampler)) : Sampler
  deriving Repr

/-- Model of Go fmt %g restricted to rationals with a terminating decimal
expansion in [0, 1), the only values a clamped sampling rate takes: an
integer prints as itself, otherwise the shortest decimal expansion is
printed with a leading zero. -/
def fmtG (q : ℚ) : String :=
  if q.den = 1 then toString q.num
  else
    match (List.range 31).find? (fun k => q.den ∣ 10 ^ k) with
    | some k =>
      let digits := toString (q.num.toNat * (10 ^ k / q.den))
      "0." ++ String.mk (List.replicate (k - digits.length) '0') ++ digits
    | none => toString q.num ++ "/" ++ toString q.den

/-- The 63-bit word the SDK ratio sampler compares against its upper bound:
the big-endian 64-bit integer formed by bytes 8..15 of the 128-bit trace
identifier, shifted right by one. -/
def traceIDLower63 (traceID : ℕ) : ℕ :=
  traceID % 2 ^ 64 / 2

/-- Modelled from the spec: the SDK constructor TraceIDRatioBased (the SDK is
an external collaborator whose behavior the tests pin down). A fraction at
least 1 yields the always-on sampler; a negative fraction is clamped to 0;
otherwise a ratio sampler is built with upper bound the floor of
fraction * 2 ^ 63 (written on the numerator and denominator so that it
evaluates by kernel reduction), and a description rendering the clamped
fraction. -/
def TraceIDRatioBased (fraction : ℚ) : Sampler :=
  if 1 ≤ fraction then Sampler.alwaysOn
  else
    let f := if fraction ≤ 0 then 0 else fraction
    Sampler.traceIDRatioSampler (f.num.toNat * 2 ^ 63 / f.den)
      ("TraceIDRatioBased\x7b" ++ fmtG f ++ "\x7d")

/-- Association-list lookup of an operation name in the operation map. -/
def lookupOperation (operationMap : List (String × Sampler)) (name : String) :
    Option Sampler :=
  match operationMap with
  | [] => none
  | e :: rest => if e.1 = name then some e.2 else lookupOperation rest name

mutual

/-- Modelled from the spec: the decision operation of a sampler. The always-on
and always-off samplers are constant; the ratio sampler samples exactly when
the 63-bit trace-ID word is below its upper bound; the per-operation sampler
looks the operation name up in its map and delegates, falling back to its
default sampler. The rate-limiting sampler is a stateful token bucket; it is
modelled at a freshly filled bucket, where a call is admitted exactly when the
rate is positive (no claim depends on the bucket dynamics). -/
def Sampler.shouldSample : Sampler → ℕ → String → Decision
  | .alwaysOn, _, _ => .RecordAndSample
  | .alwaysOff, _, _ => .Drop
  | .traceIDRatioSampler ub _, t, _ =>
      if traceIDLower63 t < ub then .RecordAndSample else .Drop
  | .rateLimiting m, _, _ => if 0 < m then .RecordAndSample else .Drop
  | .perOperation dflt ops, t, name =>
      match shouldSampleOps ops t name with
      | some d => d
      | none => dflt.shouldSample t name

def shouldSampleOps : List (String × Sampler) → ℕ → String → Option Decision
  | [], _, _ => none
  | e :: rest, t, name =>
      if e.1 = name then some (e.2.shouldSample t name)
      else shouldSampleOps rest t name

end

mutual

def Sampler.description : Sampler → String
  | .alwaysOn => "AlwaysOnSampler"
  | .alwaysOff => "AlwaysOffSampler"
  | .traceIDRatioSampler _ d => d
  | .rateLimiting m => "RateLimitingSampler\x7b" ++ fmtG m ++ "\x7d"
  | .perOperation dflt ops =>
      "PerOperationSampler\x7bdefault=" ++ dflt.description ++ ",perOperation=\x7b"
        ++ descriptionOps ops ++ "\x7d\x7d"

def descriptionOps : List (String × Sampler) → String
  | [] => ""
  | [e] => e.1 ++ ":" ++ e.2.description
  | e :: rest => e.1 ++ ":" ++ e.2.description ++ "," ++ descriptionOps rest

end

/-- Modelled from the spec: building one entry of the per-operation map. An
entry with a probabilistic sub-document yields a ratio sampler at its rate; an
entry with a rate-limiting sub-document yields a rate-limiting sampler; an
entry with neither populated fails the whole translation with a
MalformedStrategy error (no partial application). -/
def buildOperationEntry (op : OperationSamplingStrategy) :
    Except String (String × Sampler) :=
  match op.ProbabilisticSampling with
  | some p => Except.ok (op.Operation, TraceIDRatioBased p.SamplingRate)
  | none =>
    match op.RateLimitingSampling with
    | some r => Except.ok (op.Operation, Sampler.rateLimiting r.MaxTracesPerSecond)
    | none => Except.error "MalformedStrategy: operation strategy with no shape"

/-- Modelled from the spec: building a per-operation sampler from the
per-operation shape. The default sub-sampler comes from the default
probability of the document; each list entry is built by buildOperationEntry,
and any entry failure fails the whole translation. The empty list yields an
empty operation map. -/
def newPerOperationSampler (strategies : PerOperationSamplingStrategies) :
    Except String Sampler := do
  let entries ← strategies.PerOperationStrategies.mapM buildOperationEntry
  return Sampler.perOperation
    (TraceIDRatioBased strategies.DefaultSamplingProbability) entries

/-- Modelled from the spec: the policy translator. A document carrying the
per-operation shape builds a per-operation sampler, taking priority over the
other branches regardless of the strategy-type tag. Otherwise the tag is
examined: the probabilistic tag with its shape populated builds a ratio
sampler from the rate and with its shape missing keeps the current sampler
(no-op); the rate-limiting tag likewise builds a rate-limiting sampler or
keeps the current one; any other tag is a MalformedStrategy error. The
function is pure: an error never changes shared state, the caller keeps the
current sampler. -/
def loadSamplingStrategies (strategies : SamplingStrategyResponse)
    (current : Sampler) : Except String Sampler :=
  match strategies.OperationSampling with
  | some opShape => newPerOperationSampler opShape
  | none =>
    if strategies.StrategyType = SamplingStrategyType_PROBABILISTIC then
      match strategies.ProbabilisticSampling with
      | some p => Except.ok (TraceIDRatioBased p.SamplingRate)
      | none => Except.ok current
    else if strategies.StrategyType = SamplingStrategyType_RATE_LIMITING then
      match strategies.RateLimitingSampling with
      | some r => Except.ok (Sampler.rateLimiting r.MaxTracesPerSecond)
      | none => Except.ok current
    else
      Except.error "MalformedStrategy: unrecognized strategy type"

/-- Modelled from the spec: one update cycle of the poller. The fetch
collaborator is passed explicitly as its Except-valued result. A fetch error
or a translation error leaves the active sampler unchanged and reports the
error; a successful translation installs the returned sampler wholesale. The
result pairs the active sampler after the cycle with the reported error, if
any. -/
def updateSamplingStrategies (fetchResult : Except String SamplingStrategyResponse)
    (current : Sampler) : Sampler × Option String :=
  match fetchResult with
  | Except.error e => (current, some ("fetching failed: " ++ e))
  | Except.ok strategies =>
    match loadSamplingStrategies strategies current with
    | Except.error e => (current, some ("loading failed: " ++ e))
    | Except.ok s2 => (s2, none)

/-- The default initial sampling rate of the facade, 0.001. -/
def defaultSamplingRate : ℚ := 1 / 1000

/-- Modelled from the spec: construction of the sampler facade. The active
policy reference is initialized to a ratio sampler at the configured initial
sampling rate before any poll completes. -/
def New (initialSamplingRate : ℚ) : Sampler :=
  TraceIDRatioBased initialSamplingRate

/-- Modelled from the spec: the description of the facade wraps the
description of the currently active sampler. -/
def Description (active : Sampler) : String :=
  "JaegerRemoteSampler\x7b" ++ active.description ++ "\x7d"

/-- The zero value of a sampling-strategy document: tag 0 (which coincides
with the probabilistic tag) and no shape populated. -/
def zeroResponse : SamplingStrategyResponse :=
  { StrategyType := 0
    ProbabilisticSampling := none
    RateLimitingSampling := none
    OperationSampling := none }

/-- The default sampling rate 0.001 in reduced form, for kernel computation. -/
theorem defaultSamplingRate_eq : defaultSamplingRate = mkRat 1 1000 := by
  norm_num [defaultSamplingRate, mkRat, Rat.normalize]

/-- C1: translating a fetched document that carries no per-operation shape and
whose top-level strategy-type tag matches neither the probabilistic tag nor
the rate-limiting tag (for instance tag value 13) reports a MalformedStrategy
error, and the active sampler after the update cycle is exactly the sampler
that was active before. A document carrying the per-operation shape is
translated by the per-operation branch before the tag is consulted, so the
tag of such a document matches the per-operation strategy kind and is
excluded here. -/
theorem updateSamplingStrategies_unrecognized_tag
    (current : Sampler) (doc : SamplingStrategyResponse)
    (hop : doc.OperationSampling = none)
    (hp : doc.StrategyType ≠ SamplingStrategyType_PROBABILISTIC)
    (hr : doc.StrategyType ≠ SamplingStrategyType_RATE_LIMITING) :
    (updateSamplingStrategies (Except.ok doc) current).1 = current ∧
    (updateSamplingStrategies (Except.ok doc) current).2.isSome = true := by
  simp only [SamplingStrategyType_PROBABILISTIC] at hp
  simp only [SamplingStrategyType_RATE_LIMITING] at hr
  simp [updateSamplingStrategies, loadSamplingStrategies, hop, hp, hr,
    SamplingStrategyType_PROBABILISTIC, SamplingStrategyType_RATE_LIMITING]

/-- Witness for C1 at the document of the test suite: tag 13 with a
rate-limiting shape, against the active ratio-0.8 sampler. -/
theorem updateSamplingStrategies_unrecognized_tag_witness :
    (updateSamplingStrategies (Except.ok ⟨13, none, some ⟨100⟩, none⟩)
        (TraceIDRatioBased (mkRat 4 5))).1 = TraceIDRatioBased (mkRat 4 5) ∧
    (updateSamplingStrategies (Except.ok ⟨13, none, some ⟨100⟩, none⟩)
        (TraceIDRatioBased (mkRat 4 5))).2.isSome = true :=
  updateSamplingStrategies_unrecognized_tag (TraceIDRatioBased (mkRat 4 5))
    ⟨13, none, some ⟨100⟩, none⟩ rfl (by decide) (by decide)

/-- C2: translating the zero-value document, which populates none of the three
shapes even though its zero tag coincides with the probabilistic tag, succeeds
with no error and leaves the active sampler unchanged, for every current
sampler: a true no-op. -/
theorem updateSamplingStrategies_zeroResponse_noop (current : Sampler) :
    updateSamplingStrategies (Except.ok zeroResponse) current = (current, none) :=
  rfl

/-- C3: a document populating both the per-operation shape and the
probabilistic shape, with the probabilistic strategy-type tag set, is
translated by the per-operation branch: whenever the per-operation shape
builds a sampler, that per-operation sampler is installed with no error, for
every current sampler and every probabilistic sub-document. -/
theorem updateSamplingStrategies_perOperation_priority
    (current : Sampler) (p : ProbabilisticSamplingStrategy)
    (rl : Option RateLimitingSamplingStrategy)
    (ops : PerOperationSamplingStrategies) (s2 : Sampler)
    (hok : newPerOperationSampler ops = Except.ok s2) :
    updateSamplingStrategies
        (Except.ok ⟨SamplingStrategyType_PROBABILISTIC, some p, rl, some ops⟩)
        current
      = (s2, none) ∧
    ∃ entries, s2 = Sampler.perOperation
        (TraceIDRatioBased ops.DefaultSamplingProbability) entries := by
  constructor
  · simp [updateSamplingStrategies, loadSamplingStrategies, hok]
  · have h2 := hok
    unfold newPerOperationSampler at h2
    cases hm : ops.PerOperationStrategies.mapM buildOperationEntry with
    | error e =>
      rw [hm] at h2
      exact absurd h2 (by simp [Bind.bind, Except.bind])
    | ok entries =>
      rw [hm] at h2
      exact ⟨entries, (Except.ok.inj h2).symm⟩

/-- Witness for C3 at the document of the test suite: probabilistic tag,
probabilistic shape at rate 1 and per-operation shape with default probability
1 and no entries, against the active ratio-0.8 sampler; the installed sampler
is the per-operation sampler whose default is the always-on sampler (the
ratio sampler at rate 1) with an empty operation map. -/
theorem updateSamplingStrategies_perOperation_priority_witness :
    updateSamplingStrategies
        (Except.ok ⟨SamplingStrategyType_PROBABILISTIC, some ⟨1⟩, none,
          some ⟨1, []⟩⟩)
        (TraceIDRatioBased (mkRat 4 5))
      = (Sampler.perOperation (TraceIDRatioBased 1) [], none) ∧
    ∃ entries, Sampler.perOperation (TraceIDRatioBased 1) []
      = Sampler.perOperation (TraceIDRatioBased (1 : ℚ)) entries :=
  updateSamplingStrategies_perOperation_priority (TraceIDRatioBased (mkRat 4 5))
    ⟨1⟩ none ⟨1, []⟩ (Sampler.perOperation (TraceIDRatioBased 1) []) rfl

/-- C4: for every 128-bit trace identifier and every operation name, the ratio
sampler built at rate 0 decides Drop, and the ratio sampler built at rate 1
decides RecordAndSample. -/
theorem TraceIDRatioBased_zero_drop_one_sample
    (t : Fin (2 ^ 128)) (name : String) :
    (TraceIDRatioBased 0).shouldSample t.val name = Decision.Drop ∧
    (TraceIDRatioBased 1).shouldSample t.val name = Decision.RecordAndSample := by
  constructor
  · simp [TraceIDRatioBased, Sampler.shouldSample]
  · simp [TraceIDRatioBased, Sampler.shouldSample]

/-- C5: immediately after construction at the default initial sampling rate
and before any poll completes, the active sampler is the ratio sampler at rate
0.001 and the facade description reports that default ratio sampler, so
sampling decisions are well-defined before any network access succeeds. -/
theorem New_default_initial_sampler :
    New defaultSamplingRate = TraceIDRatioBased (1 / 1000) ∧
    Description (New defaultSamplingRate)
      = "JaegerRemoteSampler\x7bTraceIDRatioBased\x7b0.001\x7d\x7d" := by
  refine ⟨rfl, ?_⟩
  rw [New, defaultSamplingRate_eq]
  simp [Description, Sampler.description, TraceIDRatioBased, fmtG]
  decide

/-- C6: translating the per-operation document with default probability 0.2
and the single entry mapping operation foo to probabilistic rate 1 succeeds,
for every current sampler, and the description of the built per-operation
sampler is the fixed string rendering the default as a ratio-0.2 sampler and
the foo entry as the always-on sampler; the facade description wraps it. The
description is a function of the sampler value alone, hence deterministic and
fully determined by the structure of the sampler. -/
theorem loadSamplingStrategies_foo_description (current : Sampler) :
    ∃ s2,
      loadSamplingStrategies
          ⟨0, none, none, some ⟨mkRat 1 5, [⟨"foo", some ⟨1⟩, none⟩]⟩⟩ current
        = Except.ok s2 ∧
      s2.description
        = "PerOperationSampler\x7bdefault=TraceIDRatioBased\x7b0.2\x7d,perOperation=\x7bfoo:AlwaysOnSampler\x7d\x7d" ∧
      Description s2
        = "JaegerRemoteSampler\x7bPerOperationSampler\x7bdefault=TraceIDRatioBased\x7b0.2\x7d,perOperation=\x7bfoo:AlwaysOnSampler\x7d\x7d\x7d" := by
  refine ⟨Sampler.perOperation (TraceIDRatioBased (mkRat 1 5))
    [("foo", Sampler.alwaysOn)], rfl, ?_, ?_⟩
  · simp [Sampler.description, descriptionOps, TraceIDRatioBased, fmtG]
    decide
  · simp [Description, Sampler.description, descriptionOps, TraceIDRatioBased,
      fmtG]
    decide

/-- C7: every update cycle either leaves the previously installed sampler in
place while reporting the error of that cycle, or succeeds and installs
exactly the sampler returned by the translator (which is the current sampler
itself on a no-op document); in every case the slot holds a fully-formed
sampler, so a caller of the decision operation always reads the last
successfully installed sampler. -/
theorem updateSamplingStrategies_fail_open
    (fetchResult : Except String SamplingStrategyResponse) (current : Sampler) :
    (∃ e, updateSamplingStrategies fetchResult current = (current, some e)) ∨
    (∃ doc s2, fetchResult = Except.ok doc ∧
      loadSamplingStrategies doc current = Except.ok s2 ∧
      updateSamplingStrategies fetchResult current = (s2, none)) := by
  cases fetchResult with
  | error e => exact Or.inl ⟨"fetching failed: " ++ e, rfl⟩
  | ok doc =>
    cases h : loadSamplingStrategies doc current with
    | error e =>
      exact Or.inl ⟨"loading failed: " ++ e, by simp [updateSamplingStrategies, h]⟩
    | ok s2 =>
      exact Or.inr ⟨doc, s2, rfl, h, by simp [updateSamplingStrategies, h]⟩

/-- C8: the decision of a ratio sampler is a pure deterministic function of
the trace identifier: the sampler value carries no mutable state in the
model, and for every rate, every trace identifier and every two operation
names, two calls on the same sampler return the same decision. -/
theorem TraceIDRatioBased_shouldSample_deterministic
    (r : ℚ) (t : ℕ) (name1 name2 : String) :
    (TraceIDRatioBased r).shouldSample t name1
      = (TraceIDRatioBased r).shouldSample t name2 := by
  by_cases h : 1 ≤ r
  · simp [TraceIDRatioBased, h, Sampler.shouldSample]
  · simp [TraceIDRatioBased, h, Sampler.shouldSample]

/-- C9: translating a per-operation document whose strategy list is empty
succeeds, for every current sampler and every tag and optional other shapes,
and yields the per-operation sampler with an empty operation map, whose
decision for every trace identifier and every operation name delegates to the
default sampler built at the default probability of the document. -/
theorem loadSamplingStrategies_empty_perOperation_delegates
    (current : Sampler) (tag : ℕ) (p : Option ProbabilisticSamplingStrategy)
    (rl : Option RateLimitingSamplingStrategy) (q : ℚ) (t : ℕ) (name : String) :
    loadSamplingStrategies ⟨tag, p, rl, some ⟨q, []⟩⟩ current
      = Except.ok (Sampler.perOperation (TraceIDRatioBased q) []) ∧
    (Sampler.perOperation (TraceIDRatioBased q) []).shouldSample t name
      = (TraceIDRatioBased q).shouldSample t name := by
  constructor
  · rfl
  · simp [Sampler.shouldSample, shouldSampleOps]

end JaegerRemote
